import Mathlib

set_option maxHeartbeats 1000000

namespace TranspoLogistics

/-! Shallow embedding of the TranspoLogisticsDemo workflow core:
the in-memory store of src/services/mockDb.ts, the RBAC middleware
of src/middleware/rbac.ts, and the mutating Next.js route handlers.
Entity fields that no modeled route ever reads (images byte content,
ingredient lists, packaging hierarchy) are omitted; JSON request
bodies are modeled with Option fields (none = key absent, or for the
items key: absent or not an array, since the routes guard with
Array.isArray). Randomly generated identifiers and timestamps are
passed in as explicit parameters. -/

/-- User row of the mockDb users table (mockDb.ts, interface User).
Roles are the runtime strings ADMIN, MANAGER, USER, VIEWER. -/
structure User where
  id : String
  username : String
  role : String
  fullName : String
  deriving DecidableEq

/-- Product row (mockDb.ts, interface Product). The optional ingredients
and packagingId references are never read by any modeled route and are
omitted; isApproved mirrors the optional boolean of the source. -/
structure Product where
  id : String
  name : String
  category : String
  buyingPrice : Int
  quantity : Int
  unit : String
  thresholdValue : Int
  expiryDate : String
  availability : String
  image : Option String
  sku : Option String
  description : Option String
  isApproved : Option Bool
  deriving DecidableEq

/-- Exhibition row (mockDb.ts, interface Exhibition): internal id plus the
external exhibitionId code used by all cross-table joins. -/
structure Exhibition where
  id : String
  exhibitionId : String
  name : String
  description : Option String
  startDate : Option String
  endDate : Option String
  status : Option String
  deriving DecidableEq

/-- ExhibitionProduct row (mockDb.ts): the per-exhibition approval record;
status is one of the runtime strings pending, approved, rejected. -/
structure ExhibitionProduct where
  id : String
  exhibitionId : String
  productId : String
  quantity : Int
  price : Option Int
  status : String
  supplierId : String
  deriving DecidableEq

/-- One entry of an order body items array (interface Order, items field). -/
structure OrderItem where
  productId : String
  quantity : Int
  deriving DecidableEq

/-- Order row (mockDb.ts, interface Order), restricted to the fields the
orders route writes or the claims read; legacy display fields
(exhibition, orderValue, expectedDelivery, unit) are never read by the
modeled logic and are omitted. -/
structure Order where
  id : String
  exhibitionId : Option String
  createdAt : Option String
  status : Option String
  items : Option (List OrderItem)
  deriving DecidableEq

/-- ProductList row (mockDb.ts, interface ProductList). -/
structure ProductList where
  id : String
  exhibitionId : String
  supplierId : String
  status : String
  createdAt : String
  totalQuantity : Int
  deriving DecidableEq

/-- ProductListItem row (mockDb.ts, interface ProductListItem). -/
structure ProductListItem where
  id : String
  productListId : String
  productId : String
  quantity : Int
  price : Int
  deriving DecidableEq

/-- The in-memory database (mockDb.ts, interface MockDatabase), restricted
to the tables the modeled routes touch (ingredients and packaging are
never used by any route in scope). -/
structure Db where
  users : List User
  products : List Product
  exhibitions : List Exhibition
  exhibitionProducts : List ExhibitionProduct
  orders : List Order
  productLists : List ProductList
  productListItems : List ProductListItem
  deriving DecidableEq

/-- mockDb.getUserById: find by id. -/
def getUserById (db : Db) (id : String) : Option User :=
  db.users.find? (fun u => u.id == id)

/-- mockDb.getProductById: find by id. -/
def getProductById (db : Db) (id : String) : Option Product :=
  db.products.find? (fun p => p.id == id)

/-- mockDb.getProductListById: find by id. -/
def getProductListById (db : Db) (id : String) : Option ProductList :=
  db.productLists.find? (fun pl => pl.id == id)

/-- mockDb.isProductApprovedForExhibition: first row matching
(exhibitionId, productId), approved iff its status is approved;
false when no row matches. -/
def isProductApprovedForExhibition (db : Db) (exhibitionId productId : String) : Bool :=
  match db.exhibitionProducts.find?
      (fun ep => ep.exhibitionId == exhibitionId && ep.productId == productId) with
  | some ep => ep.status == "approved"
  | none => false

/-- mockDb.updateExhibitionProduct specialized to the only update the
routes perform, updates = partial record containing just status:
findIndex by id, merge the patch over the row in place, return the
updated row; none when no row has that id. -/
def updateExhibitionProduct (eps : List ExhibitionProduct) (id newStatus : String) :
    Option (ExhibitionProduct × List ExhibitionProduct) :=
  match eps with
  | [] => none
  | ep :: rest =>
    if ep.id == id then
      some ({ ep with status := newStatus }, { ep with status := newStatus } :: rest)
    else
      (updateExhibitionProduct rest id newStatus).map (fun r => (r.1, ep :: r.2))

/-- Partial ProductList patch as passed by the product-lists routes
(only status or totalQuantity are ever supplied). -/
structure ProductListPatch where
  status : Option String := none
  totalQuantity : Option Int := none

/-- Merge of a ProductListPatch over a row, spread semantics. -/
def applyPLPatch (pl : ProductList) (u : ProductListPatch) : ProductList :=
  { pl with
    status := u.status.getD pl.status
    totalQuantity := u.totalQuantity.getD pl.totalQuantity }

/-- mockDb.updateProductList: merge the patch over the first row whose id
matches; when no row matches the table is unchanged (the source returns
null without mutating). -/
def updateProductList (pls : List ProductList) (id : String) (u : ProductListPatch) :
    List ProductList :=
  match pls with
  | [] => []
  | pl :: rest =>
    if pl.id == id then applyPLPatch pl u :: rest
    else pl :: updateProductList rest id u

/-- mockDb.deleteProductListItemsByProductListId: keep items of other lists. -/
def deleteProductListItemsByProductListId (items : List ProductListItem) (productListId : String) :
    List ProductListItem :=
  items.filter (fun it => !(it.productListId == productListId))

/-- Partial Product patch as carried by a PUT /api/products/[id] body.
For source fields that are themselves optional, a present patch value
overrides; an absent key leaves the old value. -/
structure ProductPatch where
  id : Option String := none
  name : Option String := none
  category : Option String := none
  buyingPrice : Option Int := none
  quantity : Option Int := none
  unit : Option String := none
  thresholdValue : Option Int := none
  expiryDate : Option String := none
  availability : Option String := none
  image : Option String := none
  sku : Option String := none
  description : Option String := none
  isApproved : Option Bool := none

/-- Override-if-present merge for optional source fields. -/
def overrideOpt (patch old : Option α) : Option α :=
  match patch with
  | some v => some v
  | none => old

/-- Spread merge of a ProductPatch over a Product row. -/
def mergeProduct (p : Product) (u : ProductPatch) : Product :=
  { id := u.id.getD p.id
    name := u.name.getD p.name
    category := u.category.getD p.category
    buyingPrice := u.buyingPrice.getD p.buyingPrice
    quantity := u.quantity.getD p.quantity
    unit := u.unit.getD p.unit
    thresholdValue := u.thresholdValue.getD p.thresholdValue
    expiryDate := u.expiryDate.getD p.expiryDate
    availability := u.availability.getD p.availability
    image := overrideOpt u.image p.image
    sku := overrideOpt u.sku p.sku
    description := overrideOpt u.description p.description
    isApproved := overrideOpt u.isApproved p.isApproved }

/-- mockDb.updateProduct: merge onto the first row whose id matches;
unchanged when absent. -/
def updateProductTable (ps : List Product) (id : String) (u : ProductPatch) : List Product :=
  match ps with
  | [] => []
  | p :: rest =>
    if p.id == id then mergeProduct p u :: rest
    else p :: updateProductTable rest id u

/-- mockDb.deleteProduct: splice out the first row whose id matches. -/
def deleteProductTable (ps : List Product) (id : String) : List Product :=
  match ps with
  | [] => []
  | p :: rest => if p.id == id then rest else p :: deleteProductTable rest id

/-- The seeded users of INITIAL_DATA (mockDb.ts). -/
def INITIAL_USERS : List User :=
  [ { id := "u1", username := "admin", role := "ADMIN", fullName := "Super Admin" },
    { id := "u2", username := "manager", role := "MANAGER", fullName := "Project Manager" },
    { id := "u3", username := "staff", role := "USER", fullName := "Operational Staff" },
    { id := "u4", username := "viewer", role := "VIEWER", fullName := "Read Only Viewer" } ]

/-! ### RBAC middleware (src/middleware/rbac.ts) -/

/-- authenticateUser: the x-user-id header value, defaulting to u3 when
the header is absent or the empty string (JS falsy), resolved through
mockDb.getUserById; none models the null (unauthenticated) result. -/
def authenticateUser (db : Db) (header : Option String) : Option User :=
  let userId : String :=
    match header with
    | none => "u3"
    | some s => if s == "" then "u3" else s
  getUserById db userId

/-- requireAuth rejects with 401 exactly when authenticateUser yields null. -/
def requireAuthRejects (db : Db) (header : Option String) : Bool :=
  (authenticateUser db header).isNone

/-- The twelve capability keys of the PERMISSIONS constant (rbac.ts). -/
inductive Capability where
  | PRODUCT_CREATE | PRODUCT_READ | PRODUCT_UPDATE | PRODUCT_DELETE
  | EXHIBITION_CREATE | EXHIBITION_READ | EXHIBITION_UPDATE
  | APPROVAL_APPROVE | APPROVAL_READ
  | ORDER_CREATE | ORDER_READ | ORDER_UPDATE
  deriving DecidableEq

/-- The PERMISSIONS constant of rbac.ts: each capability's allow-list of
role strings, exactly as written in the source. -/
def PERMISSIONS : Capability → List String
  | .PRODUCT_CREATE => ["ADMIN", "MANAGER", "USER"]
  | .PRODUCT_READ => ["ADMIN", "MANAGER", "USER", "VIEWER"]
  | .PRODUCT_UPDATE => ["ADMIN", "MANAGER"]
  | .PRODUCT_DELETE => ["ADMIN"]
  | .EXHIBITION_CREATE => ["ADMIN", "MANAGER"]
  | .EXHIBITION_READ => ["ADMIN", "MANAGER", "USER", "VIEWER"]
  | .EXHIBITION_UPDATE => ["ADMIN", "MANAGER"]
  | .APPROVAL_APPROVE => ["ADMIN", "MANAGER"]
  | .APPROVAL_READ => ["ADMIN", "MANAGER", "USER", "VIEWER"]
  | .ORDER_CREATE => ["ADMIN", "MANAGER", "USER"]
  | .ORDER_READ => ["ADMIN", "MANAGER", "USER", "VIEWER"]
  | .ORDER_UPDATE => ["ADMIN", "MANAGER"]

/-- The permission evaluator: hasRole of rbac.ts applied to an
authenticated context carrying the given role string and to the
allow-list PERMISSIONS[capability] (allowedRoles.includes(role)).
A total pure function: it never throws and has no side effects. -/
def evaluate (role : String) (cap : Capability) : Bool :=
  (PERMISSIONS cap).contains role

/-- The role-permission table of spec section 4.1, transcribed from the
words of the spec (note its third role is named OPERATOR): used only to
compare the spec table against the evaluator of the source. -/
def specMatrix (role : String) (cap : Capability) : Bool :=
  match cap with
  | .PRODUCT_CREATE => ["ADMIN", "MANAGER", "OPERATOR"].contains role
  | .PRODUCT_READ => ["ADMIN", "MANAGER", "OPERATOR", "VIEWER"].contains role
  | .PRODUCT_UPDATE => ["ADMIN", "MANAGER"].contains role
  | .PRODUCT_DELETE => ["ADMIN"].contains role
  | .EXHIBITION_CREATE => ["ADMIN", "MANAGER"].contains role
  | .EXHIBITION_READ => ["ADMIN", "MANAGER", "OPERATOR", "VIEWER"].contains role
  | .EXHIBITION_UPDATE => ["ADMIN", "MANAGER"].contains role
  | .APPROVAL_APPROVE => ["ADMIN", "MANAGER"].contains role
  | .APPROVAL_READ => ["ADMIN", "MANAGER", "OPERATOR", "VIEWER"].contains role
  | .ORDER_CREATE => ["ADMIN", "MANAGER", "OPERATOR"].contains role
  | .ORDER_READ => ["ADMIN", "MANAGER", "OPERATOR", "VIEWER"].contains role
  | .ORDER_UPDATE => ["ADMIN", "MANAGER"].contains role

/-! ### Route handlers -/

/-- An order-creation request body (POST /api/orders). A none items field
models an absent items key or a non-array value (the route guards with
Array.isArray); a none exhibitionId models an absent or non-string key,
and the empty string is the falsy string. The id, createdAt and status
keys participate in the final object spread. -/
structure OrderBody where
  exhibitionId : Option String := none
  items : Option (List OrderItem) := none
  id : Option String := none
  createdAt : Option String := none
  status : Option String := none
  deriving DecidableEq

/-- Result of POST /api/orders: 201 with the created order, or the 400
unapproved-product validation error carrying the failing product id and
its name when the product is resolvable. -/
inductive OrderResult where
  | created (o : Order)
  | validationFailed (productId : String) (productName : Option String)
  deriving DecidableEq

/-- Whether an order result is the 201 created outcome. -/
def OrderResult.isCreated : OrderResult → Bool
  | .created _ => true
  | .validationFailed _ _ => false

/-- The validation loop of POST /api/orders: when exhibitionId is truthy
and items is an array, the first item failing
isProductApprovedForExhibition; none when all pass or when the gate does
not apply. -/
def ordersFirstFailing (db : Db) (body : OrderBody) : Option OrderItem :=
  match body.exhibitionId, body.items with
  | some ex, some items =>
    if ex == "" then none
    else items.find? (fun it => !(isProductApprovedForExhibition db ex it.productId))
  | _, _ => none

/-- The order built by POST /api/orders: the literal with generated id,
stamped createdAt and DRAFT status, spread-overridden by the body. -/
def builtOrder (genId now : String) (body : OrderBody) : Order :=
  { id := body.id.getD genId
    exhibitionId := body.exhibitionId
    createdAt := some (body.createdAt.getD now)
    status := some (body.status.getD "DRAFT")
    items := body.items }

/-- POST /api/orders (part_001 lines 176 to 217): the first failing item,
if any, aborts the call with the validation error naming that product and
leaves the store untouched; otherwise the built order is appended. -/
def ordersPOST (db : Db) (genId now : String) (body : OrderBody) : OrderResult × Db :=
  match ordersFirstFailing db body with
  | some it =>
    (.validationFailed it.productId ((getProductById db it.productId).map (fun p => p.name)), db)
  | none =>
    (.created (builtOrder genId now body),
     { db with orders := db.orders ++ [builtOrder genId now body] })

/-- Result of POST /api/exhibitions/approve: 400 invalid status, 404 not
found, or 200 with the updated row. -/
inductive ApprovalResult where
  | updated (ep : ExhibitionProduct)
  | invalidStatus
  | notFound
  deriving DecidableEq

/-- POST /api/exhibitions/approve (part_002 lines 29 to 54): reject any
status other than approved or rejected before touching the store, then
updateExhibitionProduct by id; null becomes the 404 result. -/
def approvePOST (db : Db) (id status : String) : ApprovalResult × Db :=
  if !(status == "approved" || status == "rejected") then
    (.invalidStatus, db)
  else
    match updateExhibitionProduct db.exhibitionProducts id status with
    | none => (.notFound, db)
    | some r => (.updated r.1, { db with exhibitionProducts := r.2 })

/-- One entry of a products array sent to the exhibition-product routes. -/
structure EPInput where
  productId : String
  quantity : Int
  price : Option Int := none
  deriving DecidableEq

/-- The rows built from a products array by the exhibition routes: fresh
ids, the target exhibition code, status pending, supplier current-user. -/
def newEPs (exhibitionCode : String) (ids : Nat → String) (ps : List EPInput) :
    List ExhibitionProduct :=
  ps.enum.map (fun pair =>
    { id := ids pair.1
      exhibitionId := exhibitionCode
      productId := pair.2.productId
      quantity := pair.2.quantity
      price := pair.2.price
      status := "pending"
      supplierId := "current-user" })

/-- POST /api/exhibitions/[id]/products (lines 33 to 67): when the body
carries a products array, append one pending row per entry. -/
def exhibitionProductsPOST (db : Db) (exhibitionId : String) (ids : Nat → String)
    (products : Option (List EPInput)) : Db :=
  match products with
  | some ps => { db with exhibitionProducts := db.exhibitionProducts ++ newEPs exhibitionId ids ps }
  | none => db

/-- Body of POST /api/exhibitions. -/
structure ExhibitionBody where
  name : String := ""
  description : Option String := none
  startDate : Option String := none
  endDate : Option String := none
  products : Option (List EPInput) := none

/-- POST /api/exhibitions: insert the new exhibition with PLANNING status
and append one pending ExhibitionProduct row per entry of the optional
products array, keyed by the generated external code. -/
def exhibitionsPOST (db : Db) (newId code : String) (epIds : Nat → String)
    (body : ExhibitionBody) : Exhibition × Db :=
  let newExhibition : Exhibition :=
    { id := newId
      exhibitionId := code
      name := body.name
      description := body.description
      startDate := body.startDate
      endDate := body.endDate
      status := some "PLANNING" }
  let db1 : Db := { db with exhibitions := db.exhibitions ++ [newExhibition] }
  match body.products with
  | some ps =>
    (newExhibition, { db1 with exhibitionProducts := db1.exhibitionProducts ++ newEPs code epIds ps })
  | none => (newExhibition, db1)

/-- The form fields read by POST /api/products; the route never reads an
isApproved field from the form. -/
structure ProductInput where
  id : String
  name : String
  category : String
  buyingPrice : Int
  quantity : Int
  unit : String
  thresholdValue : Int
  expiryDate : String
  availability : String
  image : String
  sku : String
  deriving DecidableEq

/-- POST /api/products (products route lines 77 to 131): build the new
product with isApproved hard-coded to false and append it. -/
def productsPOST (db : Db) (inp : ProductInput) : Product × Db :=
  let newProduct : Product :=
    { id := inp.id
      name := inp.name
      category := inp.category
      buyingPrice := inp.buyingPrice
      quantity := inp.quantity
      unit := inp.unit
      thresholdValue := inp.thresholdValue
      expiryDate := inp.expiryDate
      availability := inp.availability
      image := some inp.image
      sku := some inp.sku
      description := none
      isApproved := some false }
  (newProduct, { db with products := db.products ++ [newProduct] })

/-- PUT /api/products/[id]: merge the body onto the row (404 leaves the
table unchanged). -/
def productPUT (db : Db) (id : String) (u : ProductPatch) : Db :=
  { db with products := updateProductTable db.products id u }

/-- DELETE /api/products/[id]: splice out the first matching row. -/
def productDELETE (db : Db) (id : String) : Db :=
  { db with products := deleteProductTable db.products id }

/-- One entry of an items array sent to the product-list routes. -/
structure PLInput where
  productId : String
  quantity : Int
  price : Option Int := none
  deriving DecidableEq

/-- The reduce over an items array computing totalQuantity
(sum + item.quantity starting from 0). -/
def sumQuantities (items : List PLInput) : Int :=
  items.foldl (fun s it => s + it.quantity) 0

/-- The rows built from an items array by the product-list routes
(item.price falsy-defaulted to 0). -/
def newPLItems (productListId : String) (ids : Nat → String) (items : List PLInput) :
    List ProductListItem :=
  items.enum.map (fun pair =>
    { id := ids pair.1
      productListId := productListId
      productId := pair.2.productId
      quantity := pair.2.quantity
      price := pair.2.price.getD 0 })

/-- POST /api/product-lists (lines 23 to 66): 400 (none) when
exhibitionId or supplierId is falsy or items is not an array; otherwise
insert the list with totalQuantity reduced over the items, then insert
one ProductListItem per entry. -/
def productListsPOST (db : Db) (listId now : String) (itemIds : Nat → String)
    (exhibitionId supplierId : Option String) (items : Option (List PLInput)) :
    Option (ProductList × Db) :=
  match exhibitionId, supplierId, items with
  | some ex, some sup, some its =>
    if ex == "" || sup == "" then none
    else
      let newList : ProductList :=
        { id := listId
          exhibitionId := ex
          supplierId := sup
          status := "pending"
          createdAt := now
          totalQuantity := sumQuantities its }
      let db1 : Db := { db with productLists := db.productLists ++ [newList] }
      some (newList, { db1 with productListItems := db1.productListItems ++ newPLItems listId itemIds its })
  | _, _, _ => none

/-- PUT /api/product-lists/[id] (lines 37 to 88): 404 (none) when the
list id is unknown; otherwise optionally merge a truthy status, and when
the body carries an items array recompute totalQuantity as the reduce
over the new items, delete the old items of the list and append the new
ones. -/
def productListPUT (db : Db) (listId : String) (status : Option String)
    (items : Option (List PLInput)) (itemIds : Nat → String) : Option Db :=
  match getProductListById db listId with
  | none => none
  | some list =>
    let db1 : Db :=
      match status with
      | some s =>
        if s == "" then db
        else { db with productLists := updateProductList db.productLists list.id { status := some s } }
      | none => db
    match items with
    | some its =>
      let db2 : Db :=
        { db1 with productLists :=
            updateProductList db1.productLists list.id { totalQuantity := some (sumQuantities its) } }
      some { db2 with productListItems :=
        (deleteProductListItemsByProductListId db2.productListItems list.id
          ++ newPLItems list.id itemIds its) }
    | none => some db1

/-! ### The public mutating operations as a step relation -/

/-- One invocation of a mutating public route, with all generated ids and
timestamps chosen by the environment. -/
inductive Op where
  | productsCreate (inp : ProductInput)
  | productUpdate (id : String) (u : ProductPatch)
  | productDelete (id : String)
  | exhibitionsCreate (newId code : String) (epIds : Nat → String) (body : ExhibitionBody)
  | exhibitionProductsAdd (exhibitionId : String) (ids : Nat → String)
      (products : Option (List EPInput))
  | approvalSet (id status : String)
  | ordersCreate (genId now : String) (body : OrderBody)
  | productListsCreate (listId now : String) (itemIds : Nat → String)
      (exhibitionId supplierId : Option String) (items : Option (List PLInput))
  | productListUpdate (listId : String) (status : Option String)
      (items : Option (List PLInput)) (itemIds : Nat → String)

/-- The store state reached after one public mutating operation. -/
def step (db : Db) (op : Op) : Db :=
  match op with
  | .productsCreate inp => (productsPOST db inp).2
  | .productUpdate id u => productPUT db id u
  | .productDelete id => productDELETE db id
  | .exhibitionsCreate newId code epIds body => (exhibitionsPOST db newId code epIds body).2
  | .exhibitionProductsAdd ex ids ps => exhibitionProductsPOST db ex ids ps
  | .approvalSet id st => (approvePOST db id st).2
  | .ordersCreate g n body => (ordersPOST db g n body).2
  | .productListsCreate lid now ids ex sup its =>
    match productListsPOST db lid now ids ex sup its with
    | some r => r.2
    | none => db
  | .productListUpdate lid st its ids =>
    match productListPUT db lid st its ids with
    | some db1 => db1
    | none => db

/-- The store state reached after a sequence of public operations. -/
def run (db : Db) (ops : List Op) : Db :=
  ops.foldl step db

/-! ### Shared helper definitions and lemmas -/

/-- A store with no rows at all (used to evaluate the theorems on
concrete inputs). -/
def emptyDb : Db :=
  { users := [], products := [], exhibitions := [], exhibitionProducts := [],
    orders := [], productLists := [], productListItems := [] }

/-- A store holding exactly the seeded users of INITIAL_DATA. -/
def dbSeedUsers : Db :=
  { users := INITIAL_USERS, products := [], exhibitions := [], exhibitionProducts := [],
    orders := [], productLists := [], productListItems := [] }

/-- Every row built by newEPs carries status pending. -/
theorem mem_newEPs_status (code : String) (ids : Nat → String) (ps : List EPInput)
    (row : ExhibitionProduct) (h : row ∈ newEPs code ids ps) : row.status = "pending" := by
  unfold newEPs at h
  rw [List.mem_map] at h
  obtain ⟨pair, _, hpair⟩ := h
  rw [← hpair]

/-! ### C3: the permission matrix -/

/-- C3 counterexample: the spec table of section 4.1 grants ProductCreate
to the role named OPERATOR, but the evaluator of the source knows no such
role string (its third role is USER), so it denies OPERATOR everything:
the claim that the evaluator returns the tabulated boolean for the role
OPERATOR is false at (OPERATOR, ProductCreate). -/
theorem C3_counterexample :
    specMatrix "OPERATOR" Capability.PRODUCT_CREATE = true ∧
    evaluate "OPERATOR" Capability.PRODUCT_CREATE = false := by
  decide

/-- C3 (amended): with the third role carrying its source name USER in
place of the spec name OPERATOR, the evaluator agrees with the section
4.1 table on all 44 role-capability combinations (USER taking the
OPERATOR column), and any role string outside the four known roles is
denied every capability (fail-closed); the evaluator is a total pure
function, so it never throws and has no side effects. -/
theorem C3_permission_matrix :
    (∀ cap : Capability,
      evaluate "ADMIN" cap = specMatrix "ADMIN" cap ∧
      evaluate "MANAGER" cap = specMatrix "MANAGER" cap ∧
      evaluate "USER" cap = specMatrix "OPERATOR" cap ∧
      evaluate "VIEWER" cap = specMatrix "VIEWER" cap) ∧
    (∀ (role : String) (cap : Capability),
      role ≠ "ADMIN" → role ≠ "MANAGER" → role ≠ "USER" → role ≠ "VIEWER" →
      evaluate role cap = false) := by
  constructor
  · intro cap
    cases cap <;> exact ⟨by decide, by decide, by decide, by decide⟩
  · intro role cap h1 h2 h3 h4
    cases cap <;> simp [evaluate, PERMISSIONS, h1, h2, h3, h4]

/-- C3 witness: the amended theorem evaluated at concrete inputs,
including an unknown role that is denied. -/
theorem C3_witness :
    (evaluate "ADMIN" Capability.PRODUCT_DELETE = specMatrix "ADMIN" Capability.PRODUCT_DELETE) ∧
    evaluate "ROOT" Capability.ORDER_CREATE = false :=
  ⟨(C3_permission_matrix.1 Capability.PRODUCT_DELETE).1,
   C3_permission_matrix.2 "ROOT" Capability.ORDER_CREATE
     (by decide) (by decide) (by decide) (by decide)⟩

/-! ### C10: default identity resolution -/

/-- C10: on the seeded users table, a request with no x-user-id header is
resolved to the fixed user u3 whose role is USER (never a 401), and a 401
arises only when a header is present, non-empty, and matches no seeded
user. -/
theorem C10_default_actor (db : Db) (hu : db.users = INITIAL_USERS) :
    authenticateUser db none =
      some { id := "u3", username := "staff", role := "USER", fullName := "Operational Staff" } ∧
    requireAuthRejects db none = false ∧
    (∀ header : Option String, requireAuthRejects db header = true →
      ∃ s, header = some s ∧ s ≠ "" ∧ getUserById db s = none) := by
  have hfind : ∀ uid : String, getUserById db uid = INITIAL_USERS.find? (fun u => u.id == uid) := by
    intro uid
    simp [getUserById, hu]
  have hu3 : authenticateUser db none = getUserById db "u3" := rfl
  refine ⟨?_, ?_, ?_⟩
  · rw [hu3, hfind]
    decide
  · rw [requireAuthRejects, hu3, hfind]
    decide
  · intro header hrej
    cases header with
    | none =>
      rw [requireAuthRejects, hu3, hfind] at hrej
      exact absurd hrej (by decide)
    | some s =>
      by_cases hs : s = ""
      · subst hs
        have : authenticateUser db (some "") = getUserById db "u3" := rfl
        rw [requireAuthRejects, this, hfind] at hrej
        exact absurd hrej (by decide)
      · have hbeq : (s == "") = false := by simp [hs]
        have : authenticateUser db (some s) = getUserById db s := by
          simp [authenticateUser, hbeq]
        rw [requireAuthRejects, this] at hrej
        exact ⟨s, rfl, hs, Option.isNone_iff_eq_none.mp hrej⟩

/-- C10 witness: the theorem evaluated on the seeded-users store with no
header and with an unknown header value. -/
theorem C10_witness :
    authenticateUser dbSeedUsers none =
      some { id := "u3", username := "staff", role := "USER", fullName := "Operational Staff" } ∧
    (∃ s, (some "zz" : Option String) = some s ∧ s ≠ "" ∧ getUserById dbSeedUsers s = none) :=
  ⟨(C10_default_actor dbSeedUsers rfl).1,
   (C10_default_actor dbSeedUsers rfl).2.2 (some "zz") (by decide)⟩

/-! ### C8: default approval state of fresh rows -/

/-- C8: every product built by POST /api/products has isApproved false,
and every ExhibitionProduct row inserted by either exhibition route has
status pending; no hypothesis constrains the linked product, so the
per-exhibition status is independent of the global approved flag. -/
theorem C8_fresh_defaults :
    (∀ (db : Db) (inp : ProductInput),
      (productsPOST db inp).1.isApproved = some false ∧
      (productsPOST db inp).2.products = db.products ++ [(productsPOST db inp).1]) ∧
    (∀ (db : Db) (ex : String) (ids : Nat → String) (ps : Option (List EPInput)),
      ∀ row ∈ (exhibitionProductsPOST db ex ids ps).exhibitionProducts,
        row ∈ db.exhibitionProducts ∨ row.status = "pending") ∧
    (∀ (db : Db) (nid code : String) (ids : Nat → String) (body : ExhibitionBody),
      ∀ row ∈ (exhibitionsPOST db nid code ids body).2.exhibitionProducts,
        row ∈ db.exhibitionProducts ∨ row.status = "pending") := by
  refine ⟨fun db inp => ⟨rfl, rfl⟩, ?_, ?_⟩
  · intro db ex ids ps row hrow
    cases ps with
    | none => exact Or.inl hrow
    | some l =>
      unfold exhibitionProductsPOST at hrow
      rcases List.mem_append.mp hrow with h | h
      · exact Or.inl h
      · exact Or.inr (mem_newEPs_status _ _ _ _ h)
  · intro db nid code ids body row hrow
    cases hp : body.products with
    | none =>
      simp only [exhibitionsPOST, hp] at hrow
      exact Or.inl hrow
    | some l =>
      simp only [exhibitionsPOST, hp] at hrow
      rcases List.mem_append.mp hrow with h | h
      · exact Or.inl h
      · exact Or.inr (mem_newEPs_status _ _ _ _ h)

/-- C8 witness: the products conjunct and the exhibition-product conjunct
evaluated on concrete rows. -/
theorem C8_witness :
    ((productsPOST emptyDb
        { id := "p1", name := "Widget", category := "c", buyingPrice := 1, quantity := 1,
          unit := "u", thresholdValue := 1, expiryDate := "d", availability := "In-stock",
          image := "i", sku := "s" }).1.isApproved = some false) ∧
    ({ id := "e1", exhibitionId := "EX-1", productId := "p1", quantity := 1, price := none,
       status := "pending", supplierId := "current-user" } ∈ emptyDb.exhibitionProducts ∨
     ExhibitionProduct.status
       { id := "e1", exhibitionId := "EX-1", productId := "p1", quantity := 1, price := none,
         status := "pending", supplierId := "current-user" } = "pending") :=
  ⟨(C8_fresh_defaults.1 emptyDb _).1,
   C8_fresh_defaults.2.1 emptyDb "EX-1" (fun _ => "e1")
     (some [{ productId := "p1", quantity := 1, price := none }]) _ (by decide)⟩

/-! ### C4: the approval gate is bypassable by malformed bodies -/

/-- C4: when the body's items key is absent or not an array, or its
exhibitionId is absent or falsy, the orders route performs no approval
check: the order is built and appended unconditionally and returned as
created. -/
theorem C4_gate_bypass (db : Db) (g n : String) (body : OrderBody)
    (h : body.items = none ∨ body.exhibitionId = none ∨ body.exhibitionId = some "") :
    ∃ o : Order, ordersPOST db g n body = (.created o, { db with orders := db.orders ++ [o] }) := by
  have hf : ordersFirstFailing db body = none := by
    rcases h with h | h | h
    · cases hex : body.exhibitionId <;> simp [ordersFirstFailing, h, hex]
    · cases hit : body.items <;> simp [ordersFirstFailing, h, hit]
    · cases hit : body.items <;> simp [ordersFirstFailing, h, hit]
  exact ⟨builtOrder g n body, by simp [ordersPOST, hf]⟩

/-- C4 witness: an order body with an exhibitionId but no items array is
accepted and inserted without any approval check, on a store where no
product is approved. -/
theorem C4_witness :
    ∃ o : Order, ordersPOST emptyDb "g1" "t1" { exhibitionId := some "EX-1" } =
      (.created o, { emptyDb with orders := emptyDb.orders ++ [o] }) :=
  C4_gate_bypass emptyDb "g1" "t1" { exhibitionId := some "EX-1" } (Or.inl rfl)

/-! ### C9: the body spread overrides the generated order fields -/

/-- An order body that explicitly carries status DRAFT. -/
def bodyWithDraft : OrderBody := { status := some "DRAFT" }

/-- C9 counterexample: the claim says a created order has status DRAFT
only for bodies containing no status field, but a body that itself
carries status DRAFT contains a status field and still yields a DRAFT
order. -/
theorem C9_counterexample :
    bodyWithDraft.status = some "DRAFT" ∧
    (ordersPOST emptyDb "g1" "t1" bodyWithDraft).1 =
      .created { id := "g1", exhibitionId := none, createdAt := some "t1",
                 status := some "DRAFT", items := none } := by
  decide

/-- C9 (amended): the body is spread last into the new order record, so a
caller-supplied id, createdAt or status overrides the generated id, the
stamped timestamp and the DRAFT default; a created order has status DRAFT
exactly when the body contains no status field or its status field equals
DRAFT. -/
theorem C9_spread_overrides (db : Db) (g n : String) (body : OrderBody) (o : Order)
    (h : (ordersPOST db g n body).1 = .created o) :
    o.id = body.id.getD g ∧
    o.createdAt = some (body.createdAt.getD n) ∧
    o.status = some (body.status.getD "DRAFT") ∧
    o.exhibitionId = body.exhibitionId ∧
    o.items = body.items ∧
    (o.status = some "DRAFT" ↔ body.status = none ∨ body.status = some "DRAFT") := by
  unfold ordersPOST at h
  cases hf : ordersFirstFailing db body with
  | some it =>
    rw [hf] at h
    exact absurd h (by simp)
  | none =>
    rw [hf] at h
    simp only [OrderResult.created.injEq] at h
    subst h
    refine ⟨rfl, rfl, rfl, rfl, rfl, ?_⟩
    cases hst : body.status with
    | none => simp [builtOrder, hst]
    | some s => simp [builtOrder, hst, Option.getD]

/-- C9 witness: the amended theorem evaluated on a body overriding all
three generated fields. -/
theorem C9_witness :
    Order.id { id := "my-id", exhibitionId := none, createdAt := some "my-time",
               status := some "SHIPPED", items := none } =
      Option.getD (OrderBody.id { id := some "my-id", createdAt := some "my-time",
                                  status := some "SHIPPED" }) "g1" :=
  (C9_spread_overrides emptyDb "g1" "t1"
    { id := some "my-id", createdAt := some "my-time", status := some "SHIPPED" }
    { id := "my-id", exhibitionId := none, createdAt := some "my-time",
      status := some "SHIPPED", items := none } (by decide)).1

/-! ### C5: setExhibitionProductStatus -/

/-- updateExhibitionProduct yields none when no row carries the id. -/
theorem updateExhibitionProduct_none (eps : List ExhibitionProduct) (id st : String)
    (h : ∀ ep ∈ eps, ep.id ≠ id) : updateExhibitionProduct eps id st = none := by
  induction eps with
  | nil => rfl
  | cons ep rest ih =>
    have hep : (ep.id == id) = false := by simp [h ep (List.mem_cons_self ep rest)]
    simp [updateExhibitionProduct, hep, ih (fun x hx => h x (List.mem_cons_of_mem ep hx))]

/-- updateExhibitionProduct on a table split at the first matching row
merges the status onto that row in place. -/
theorem updateExhibitionProduct_split (pre : List ExhibitionProduct) (r : ExhibitionProduct)
    (suf : List ExhibitionProduct) (id st : String)
    (hpre : ∀ ep ∈ pre, ep.id ≠ id) (hr : r.id = id) :
    updateExhibitionProduct (pre ++ r :: suf) id st =
      some ({ r with status := st }, pre ++ { r with status := st } :: suf) := by
  induction pre with
  | nil =>
    have : (r.id == id) = true := by simp [hr]
    simp [updateExhibitionProduct, this]
  | cons ep rest ih =>
    have hep : (ep.id == id) = false := by simp [hpre ep (List.mem_cons_self ep rest)]
    simp [updateExhibitionProduct, hep,
      ih (fun x hx => hpre x (List.mem_cons_of_mem ep hx))]

/-- C5: the approve route accepts only the statuses approved and
rejected, rejecting anything else as invalid input before looking at the
store (regardless of whether the id exists); with a valid status and no
matching row it answers not-found and leaves the store untouched; with a
valid status and a matching row it merges the new status onto that row in
place and returns the updated row. -/
theorem C5_set_status (db : Db) (id st : String) :
    (st ≠ "approved" → st ≠ "rejected" → approvePOST db id st = (.invalidStatus, db)) ∧
    ((st = "approved" ∨ st = "rejected") →
      (∀ ep ∈ db.exhibitionProducts, ep.id ≠ id) →
      approvePOST db id st = (.notFound, db)) ∧
    ((st = "approved" ∨ st = "rejected") →
      ∀ pre r suf, db.exhibitionProducts = pre ++ r :: suf →
        (∀ ep ∈ pre, ep.id ≠ id) → r.id = id →
        approvePOST db id st =
          (.updated { r with status := st },
           { db with exhibitionProducts := pre ++ { r with status := st } :: suf })) := by
  refine ⟨?_, ?_, ?_⟩
  · intro h1 h2
    have : (st == "approved" || st == "rejected") = false := by simp [h1, h2]
    simp [approvePOST, this]
  · intro hv habs
    have hok : (st == "approved" || st == "rejected") = true := by
      rcases hv with h | h <;> simp [h]
    simp [approvePOST, hok, updateExhibitionProduct_none db.exhibitionProducts id st habs]
  · intro hv pre r suf hsplit hpre hr
    have hok : (st == "approved" || st == "rejected") = true := by
      rcases hv with h | h <;> simp [h]
    simp [approvePOST, hok, hsplit, updateExhibitionProduct_split pre r suf id st hpre hr]

/-- A one-row store used to evaluate the approval theorems. -/
def dbOnePending : Db :=
  { emptyDb with exhibitionProducts :=
      [{ id := "e1", exhibitionId := "EX-1", productId := "p1", quantity := 1, price := none,
         status := "pending", supplierId := "current-user" }] }

/-- C5 witness: the three branches evaluated concretely — an invalid
status is rejected even though the id exists, an unknown id is not found,
and a valid update rewrites the row in place. -/
theorem C5_witness :
    approvePOST dbOnePending "e1" "shipped" = (.invalidStatus, dbOnePending) ∧
    approvePOST dbOnePending "zz" "approved" = (.notFound, dbOnePending) ∧
    approvePOST dbOnePending "e1" "approved" =
      (.updated { id := "e1", exhibitionId := "EX-1", productId := "p1", quantity := 1,
                  price := none, status := "approved", supplierId := "current-user" },
       { dbOnePending with exhibitionProducts :=
          [] ++ { id := "e1", exhibitionId := "EX-1", productId := "p1", quantity := 1,
                  price := none, status := "approved", supplierId := "current-user" } :: [] }) :=
  ⟨(C5_set_status dbOnePending "e1" "shipped").1 (by decide) (by decide),
   (C5_set_status dbOnePending "zz" "approved").2.1 (Or.inl rfl) (by decide),
   (C5_set_status dbOnePending "e1" "approved").2.2 (Or.inl rfl) []
     { id := "e1", exhibitionId := "EX-1", productId := "p1", quantity := 1, price := none,
       status := "pending", supplierId := "current-user" } [] rfl (by decide) rfl⟩

/-! ### C1 and C2: the approval gate on order creation -/

/-- The one-row-per-(exhibitionCode, productId) convention of the data
model (spec section 3, I4): two rows agreeing on both keys are the same
row. The gate claims quantify over stores satisfying this convention. -/
def pairUnique (eps : List ExhibitionProduct) : Prop :=
  ∀ a ∈ eps, ∀ b ∈ eps, a.exhibitionId = b.exhibitionId → a.productId = b.productId → a = b

/-- Under the one-row-per-pair convention, the first-match lookup of
isProductApprovedForExhibition agrees with the existence of an approved
row for the pair. -/
theorem isApproved_iff (db : Db) (ex pid : String) (hu : pairUnique db.exhibitionProducts) :
    isProductApprovedForExhibition db ex pid = true ↔
      ∃ ep ∈ db.exhibitionProducts,
        ep.exhibitionId = ex ∧ ep.productId = pid ∧ ep.status = "approved" := by
  unfold isProductApprovedForExhibition
  cases hf : db.exhibitionProducts.find?
      (fun ep => ep.exhibitionId == ex && ep.productId == pid) with
  | none =>
    simp only
    constructor
    · intro h
      exact absurd h (by simp)
    · rintro ⟨r, hr, he, hp, _⟩
      have hnp := List.find?_eq_none.mp hf r hr
      simp [he, hp] at hnp
  | some ep =>
    have hmem := List.mem_of_find?_eq_some hf
    have hpred := List.find?_some hf
    simp only [Bool.and_eq_true, beq_iff_eq] at hpred
    simp only
    constructor
    · intro h
      have hs : ep.status = "approved" := by simpa using h
      exact ⟨ep, hmem, hpred.1, hpred.2, hs⟩
    · rintro ⟨r, hr, he, hp, hs⟩
      have hre : r = ep := hu r hr ep hmem (by rw [he, hpred.1]) (by rw [hp, hpred.2])
      subst hre
      simp [hs]

/-- C1: with a truthy exhibition code and a non-empty items array, and a
store obeying the one-row-per-(exhibition, product) convention of the
data model, order creation succeeds exactly when every item has an
approved ExhibitionProduct row for that exhibition; when some item fails,
the call returns the validation error naming the first failing product by
id (with its name when resolvable) and the store is returned unchanged,
so no order is inserted. -/
theorem C1_approval_gate (db : Db) (g n : String) (body : OrderBody) (ex : String)
    (items : List OrderItem) (hu : pairUnique db.exhibitionProducts)
    (hex : body.exhibitionId = some ex) (hex2 : ex ≠ "")
    (hit : body.items = some items) (hne : items ≠ []) :
    ((ordersPOST db g n body).1.isCreated = true ↔
      ∀ it ∈ items, ∃ ep ∈ db.exhibitionProducts,
        ep.exhibitionId = ex ∧ ep.productId = it.productId ∧ ep.status = "approved") ∧
    (∀ it, items.find? (fun i => !(isProductApprovedForExhibition db ex i.productId)) = some it →
      ordersPOST db g n body =
        (.validationFailed it.productId ((getProductById db it.productId).map (fun p => p.name)),
         db)) := by
  have hbeq : (ex == "") = false := by simp [hex2]
  have hff : ordersFirstFailing db body =
      items.find? (fun it => !(isProductApprovedForExhibition db ex it.productId)) := by
    simp [ordersFirstFailing, hex, hit, hbeq]
  constructor
  · cases hf : items.find? (fun it => !(isProductApprovedForExhibition db ex it.productId)) with
    | none =>
      have hnone : ordersFirstFailing db body = none := by rw [hff, hf]
      constructor
      · intro _ it hin
        have hnp := List.find?_eq_none.mp hf it hin
        simp only [Bool.not_eq_true', Bool.not_eq_false] at hnp
        exact (isApproved_iff db ex it.productId hu).mp hnp
      · intro _
        simp [ordersPOST, hnone, OrderResult.isCreated]
    | some it =>
      have hsome : ordersFirstFailing db body = some it := by rw [hff, hf]
      constructor
      · intro hcr
        simp [ordersPOST, hsome, OrderResult.isCreated] at hcr
      · intro hall
        exfalso
        have hpred := List.find?_some hf
        have hmem := List.mem_of_find?_eq_some hf
        have happ := (isApproved_iff db ex it.productId hu).mpr (hall it hmem)
        simp [happ] at hpred
  · intro it hfind
    have hsome : ordersFirstFailing db body = some it := by rw [hff, hfind]
    simp [ordersPOST, hsome]

/-- A store whose only ExhibitionProduct row approves p1 for EX-1. -/
def dbApproved : Db :=
  { emptyDb with exhibitionProducts :=
      [{ id := "e1", exhibitionId := "EX-1", productId := "p1", quantity := 1, price := none,
         status := "approved", supplierId := "current-user" }] }

/-- C1 witness: on the one-approved-row store, an order for p1 is
created, and an order containing the unlisted p2 fails with the
validation error naming p2 and leaves the store unchanged. -/
theorem C1_witness :
    (ordersPOST dbApproved "g1" "t1"
      { exhibitionId := some "EX-1",
        items := some [{ productId := "p1", quantity := 5 }] }).1.isCreated = true ∧
    ordersPOST dbApproved "g1" "t1"
        { exhibitionId := some "EX-1",
          items := some [{ productId := "p1", quantity := 5 },
                         { productId := "p2", quantity := 1 }] } =
      (.validationFailed "p2" ((getProductById dbApproved "p2").map (fun p => p.name)),
       dbApproved) :=
  ⟨(C1_approval_gate dbApproved "g1" "t1"
      { exhibitionId := some "EX-1", items := some [{ productId := "p1", quantity := 5 }] }
      "EX-1" [{ productId := "p1", quantity := 5 }]
      (by unfold pairUnique; decide) rfl (by decide) rfl (by decide)).1.mpr (by decide),
   (C1_approval_gate dbApproved "g1" "t1"
      { exhibitionId := some "EX-1",
        items := some [{ productId := "p1", quantity := 5 },
                       { productId := "p2", quantity := 1 }] }
      "EX-1" [{ productId := "p1", quantity := 5 }, { productId := "p2", quantity := 1 }]
      (by unfold pairUnique; decide) rfl (by decide) rfl (by decide)).2
     { productId := "p2", quantity := 1 } (by decide)⟩

/-- C2: with a truthy exhibition code and an items array of at least two
entries in which some later item k is unapproved for that exhibition, the
orders table is left completely unchanged — zero orders are created —
whatever the status of the items before k. -/
theorem C2_atomicity (db : Db) (g n : String) (body : OrderBody) (ex : String)
    (items : List OrderItem) (k : Nat)
    (hex : body.exhibitionId = some ex) (hex2 : ex ≠ "") (hit : body.items = some items)
    (hN : 2 ≤ items.length) (hk1 : 1 ≤ k) (hk : k < items.length)
    (hbad : isProductApprovedForExhibition db ex (items[k]).productId = false) :
    (ordersPOST db g n body).2.orders = db.orders := by
  have hbeq : (ex == "") = false := by simp [hex2]
  have hff : ordersFirstFailing db body =
      items.find? (fun it => !(isProductApprovedForExhibition db ex it.productId)) := by
    simp [ordersFirstFailing, hex, hit, hbeq]
  cases hf : items.find? (fun it => !(isProductApprovedForExhibition db ex it.productId)) with
  | none =>
    exfalso
    have hnp := List.find?_eq_none.mp hf (items[k]) (List.getElem_mem hk)
    simp [hbad] at hnp
  | some it =>
    have hsome : ordersFirstFailing db body = some it := by rw [hff, hf]
    simp [ordersPOST, hsome]

/-- C2 witness: the atomicity theorem on a two-item order whose first
item is approved and whose second is not. -/
theorem C2_witness :
    (ordersPOST dbApproved "g1" "t1"
        { exhibitionId := some "EX-1",
          items := some [{ productId := "p1", quantity := 5 },
                         { productId := "p2", quantity := 1 }] }).2.orders =
      dbApproved.orders :=
  C2_atomicity dbApproved "g1" "t1"
    { exhibitionId := some "EX-1",
      items := some [{ productId := "p1", quantity := 5 },
                     { productId := "p2", quantity := 1 }] }
    "EX-1" [{ productId := "p1", quantity := 5 }, { productId := "p2", quantity := 1 }] 1
    rfl (by decide) rfl (by decide) (by decide) (by decide) (by decide)

/-! ### C7: ProductList totalQuantity -/

/-- The reduce of the routes equals the sum of the item quantities. -/
theorem sumQuantities_eq (its : List PLInput) :
    sumQuantities its = (its.map (fun it => it.quantity)).sum := by
  rw [List.sum_eq_foldl, List.foldl_map]
  rfl

/-- The quantities of the rows built from an items array are exactly the
quantities of the array. -/
theorem newPLItems_quantities (lid : String) (ids : Nat → String) (its : List PLInput) :
    (newPLItems lid ids its).map (fun it => it.quantity) = its.map (fun it => it.quantity) := by
  unfold newPLItems
  rw [List.map_map]
  rw [show ((fun it : ProductListItem => it.quantity) ∘ fun pair : Nat × PLInput =>
      ({ id := ids pair.1, productListId := lid, productId := pair.2.productId,
         quantity := pair.2.quantity, price := pair.2.price.getD 0 } : ProductListItem)) =
      ((fun it : PLInput => it.quantity) ∘ Prod.snd) from rfl]
  rw [← List.map_map, List.enum_map_snd]

/-- Every row built from an items array belongs to the target list. -/
theorem mem_newPLItems_listId (lid : String) (ids : Nat → String) (its : List PLInput)
    (it : ProductListItem) (h : it ∈ newPLItems lid ids its) : it.productListId = lid := by
  unfold newPLItems at h
  rw [List.mem_map] at h
  obtain ⟨pair, _, hpair⟩ := h
  rw [← hpair]

/-- Updating the first row matching an id patches exactly the row that
find? locates. -/
theorem find?_updateProductList (pls : List ProductList) (id : String) (u : ProductListPatch)
    (l : ProductList) (h : pls.find? (fun pl => pl.id == id) = some l) :
    (updateProductList pls id u).find? (fun pl => pl.id == id) = some (applyPLPatch l u) := by
  induction pls with
  | nil => simp at h
  | cons pl rest ih =>
    by_cases hb : (pl.id == id) = true
    · have hl : pl = l := by
        rw [List.find?_cons, hb] at h
        simpa using h
      subst hl
      have hb2 : ((applyPLPatch pl u).id == id) = true := hb
      have urw : updateProductList (pl :: rest) id u = applyPLPatch pl u :: rest := by
        simp [updateProductList, hb]
      rw [urw, List.find?_cons, hb2]
    · have hbf : (pl.id == id) = false := by simpa using hb
      have h2 : rest.find? (fun pl => pl.id == id) = some l := by
        rw [List.find?_cons, hbf] at h
        simpa using h
      have urw : updateProductList (pl :: rest) id u = pl :: updateProductList rest id u := by
        simp [updateProductList, hbf]
      rw [urw, List.find?_cons, hbf]
      exact ih h2

/-- The items table is untouched by the status branch of the PUT route. -/
theorem productListPUT_db1_items (db : Db) (listId : String) (u : ProductListPatch) :
    (Db.productListItems { db with productLists := updateProductList db.productLists listId u })
      = db.productListItems := rfl

/-- C7: totalQuantity is the exact sum of the current item quantities
after each public item-writing operation. After the PUT route replaces
the item set of an existing list, the list resolves to a row whose
totalQuantity is the sum of the new item quantities, and the item rows of
that list are exactly the new ones, in order, with the same quantities —
regardless of any prior state. After the POST route creates a list, its
totalQuantity is the sum of the initial item quantities and the list is
appended to the table. -/
theorem C7_total_quantity :
    (∀ (db : Db) (listId : String) (st : Option String) (its : List PLInput)
        (ids : Nat → String) (db2 : Db),
      productListPUT db listId st (some its) ids = some db2 →
      ∃ pl, getProductListById db2 listId = some pl ∧
        pl.totalQuantity = (its.map (fun it => it.quantity)).sum ∧
        (db2.productListItems.filter (fun it => it.productListId == listId)).map
            (fun it => it.quantity) = its.map (fun it => it.quantity)) ∧
    (∀ (db : Db) (listId now : String) (ids : Nat → String) (ex sup : String)
        (its : List PLInput) (pl : ProductList) (db2 : Db),
      productListsPOST db listId now ids (some ex) (some sup) (some its) = some (pl, db2) →
      pl.totalQuantity = (its.map (fun it => it.quantity)).sum ∧
      db2.productLists = db.productLists ++ [pl]) := by
  constructor
  · intro db listId st its ids db2 h
    unfold productListPUT at h
    cases hg : getProductListById db listId with
    | none =>
      rw [hg] at h
      exact absurd h (by simp)
    | some list =>
      rw [hg] at h
      have hlid : list.id = listId := by
        have := List.find?_some hg
        simpa using this
      subst hlid
      simp only [Option.some.injEq] at h
      subst h
      -- the productLists table after the optional status merge
      set db1 : Db :=
        (match st with
         | some s =>
           if s == "" then db
           else { db with productLists :=
              updateProductList db.productLists list.id { status := some s } }
         | none => db) with hdb1
      have hitems1 : db1.productListItems = db.productListItems := by
        rw [hdb1]
        cases st with
        | none => rfl
        | some s =>
          by_cases hs : (s == "") = true
          · simp [hs]
          · simp [hs]
      have hfind1 : ∃ l1, db1.productLists.find? (fun pl => pl.id == list.id) = some l1 := by
        rw [hdb1]
        cases st with
        | none => exact ⟨list, hg⟩
        | some s =>
          by_cases hs : (s == "") = true
          · simp only [hs, if_true]
            exact ⟨list, hg⟩
          · simp only [hs, if_false]
            exact ⟨applyPLPatch list { status := some s },
              find?_updateProductList db.productLists list.id _ list hg⟩
      obtain ⟨l1, hl1⟩ := hfind1
      refine ⟨applyPLPatch l1 { totalQuantity := some (sumQuantities its) }, ?_, ?_, ?_⟩
      · exact find?_updateProductList db1.productLists list.id _ l1 hl1
      · simp [applyPLPatch, sumQuantities_eq]
      · rw [hitems1]
        rw [deleteProductListItemsByProductListId, List.filter_append, List.filter_filter]
        have hleft :
            db.productListItems.filter
              (fun a => (a.productListId == list.id) && !(a.productListId == list.id)) = [] := by
          simp
        rw [hleft]
        have hright : (newPLItems list.id ids its).filter
            (fun it => it.productListId == list.id) = newPLItems list.id ids its :=
          List.filter_eq_self.mpr (fun a ha => by
            simp [mem_newPLItems_listId list.id ids its a ha])
        rw [List.nil_append, hright, newPLItems_quantities]
  · intro db listId now ids ex sup its pl db2 h
    simp only [productListsPOST] at h
    by_cases hx : (ex == "" || sup == "") = true
    · rw [if_pos hx] at h
      exact absurd h (by simp)
    · rw [if_neg hx] at h
      simp only [Option.some.injEq, Prod.mk.injEq] at h
      obtain ⟨hpl, hdb⟩ := h
      subst hpl
      subst hdb
      exact ⟨by simp [sumQuantities_eq], rfl⟩

/-- A store holding one list L1 with a stale totalQuantity and one stale
item row. -/
def dbListW : Db :=
  { emptyDb with
    productLists :=
      [{ id := "L1", exhibitionId := "EX-1", supplierId := "sup", status := "pending",
         createdAt := "t0", totalQuantity := 99 }],
    productListItems :=
      [{ id := "old1", productListId := "L1", productId := "z", quantity := 42, price := 1 }] }

/-- The replacement items used by the C7 witness. -/
def itsW : List PLInput :=
  [{ productId := "a", quantity := 2, price := none },
   { productId := "b", quantity := 3, price := none }]

/-- Deterministic item ids for the C7 witness. -/
def idsW : Nat → String := fun i => if i == 0 then "i0" else "i1"

/-- The list created by the C7 POST witness. -/
def plW : ProductList :=
  { id := "L2", exhibitionId := "EX-1", supplierId := "sup", status := "pending",
    createdAt := "t1", totalQuantity := 5 }

/-- The store produced by the C7 POST witness. -/
def db2W : Db :=
  { emptyDb with
    productLists := [plW],
    productListItems :=
      [{ id := "i0", productListId := "L2", productId := "a", quantity := 2, price := 0 },
       { id := "i1", productListId := "L2", productId := "b", quantity := 3, price := 0 }] }

/-- C7 witness: replacing the items of L1 resets its totalQuantity from
the stale 99 to 5 and its current items to the new ones, and creating L2
records totalQuantity 5. -/
theorem C7_witness :
    (∃ pl, getProductListById
        ((productListPUT dbListW "L1" none (some itsW) idsW).getD emptyDb) "L1" = some pl ∧
      pl.totalQuantity = (itsW.map (fun it => it.quantity)).sum ∧
      (((productListPUT dbListW "L1" none (some itsW) idsW).getD
          emptyDb).productListItems.filter (fun it => it.productListId == "L1")).map
        (fun it => it.quantity) = itsW.map (fun it => it.quantity)) ∧
    (plW.totalQuantity = (itsW.map (fun it => it.quantity)).sum ∧
      db2W.productLists = emptyDb.productLists ++ [plW]) :=
  ⟨C7_total_quantity.1 dbListW "L1" none itsW idsW
     ((productListPUT dbListW "L1" none (some itsW) idsW).getD emptyDb) (by decide),
   C7_total_quantity.2 emptyDb "L2" "t1" idsW "EX-1" "sup" itsW plW db2W (by decide)⟩

/-! ### C6: no transition back to pending -/

/-- Positionwise evolution of the ExhibitionProduct table: rows are never
deleted or reordered, every surviving position keeps its row id, and a
row that was not pending never becomes pending. -/
def epsNoRepend (a b : List ExhibitionProduct) : Prop :=
  a.length ≤ b.length ∧
  ∀ j (ha : j < a.length) (hb : j < b.length),
    b[j].id = a[j].id ∧ (a[j].status ≠ "pending" → b[j].status ≠ "pending")

theorem epsNoRepend_refl (a : List ExhibitionProduct) : epsNoRepend a a :=
  ⟨le_refl _, fun _ _ _ => ⟨rfl, fun h => h⟩⟩

theorem epsNoRepend_trans {a b c : List ExhibitionProduct}
    (h1 : epsNoRepend a b) (h2 : epsNoRepend b c) : epsNoRepend a c := by
  obtain ⟨l1, p1⟩ := h1
  obtain ⟨l2, p2⟩ := h2
  refine ⟨le_trans l1 l2, fun j ha hc => ?_⟩
  have hb : j < b.length := lt_of_lt_of_le ha l1
  obtain ⟨i1, s1⟩ := p1 j ha hb
  obtain ⟨i2, s2⟩ := p2 j hb hc
  exact ⟨i2.trans i1, fun h => s2 (s1 h)⟩

theorem epsNoRepend_append (a t : List ExhibitionProduct) : epsNoRepend a (a ++ t) := by
  refine ⟨by simp, fun j ha hb => ?_⟩
  rw [List.getElem_append_left ha]
  exact ⟨rfl, fun h => h⟩

/-- updateExhibitionProduct keeps the table length, every position's row
id, and changes a status only to the supplied one. -/
theorem updateExhibitionProduct_pointwise (eps : List ExhibitionProduct) (id st : String)
    (pr : ExhibitionProduct × List ExhibitionProduct)
    (h : updateExhibitionProduct eps id st = some pr) :
    pr.2.length = eps.length ∧
    ∀ j (ha : j < eps.length) (hb : j < pr.2.length),
      pr.2[j].id = eps[j].id ∧ (pr.2[j].status = eps[j].status ∨ pr.2[j].status = st) := by
  induction eps generalizing pr with
  | nil => simp [updateExhibitionProduct] at h
  | cons ep rest ih =>
    by_cases hb0 : (ep.id == id) = true
    · simp only [updateExhibitionProduct, hb0, if_true] at h
      obtain rfl := Option.some.inj h
      refine ⟨by simp, fun j ha hbj => ?_⟩
      cases j with
      | zero => exact ⟨rfl, Or.inr rfl⟩
      | succ i => exact ⟨rfl, Or.inl rfl⟩
    · simp only [updateExhibitionProduct, hb0, if_false] at h
      cases hu : updateExhibitionProduct rest id st with
      | none =>
        rw [hu] at h
        simp at h
      | some pr0 =>
        rw [hu] at h
        obtain rfl := Option.some.inj (by simpa using h)
        obtain ⟨hlen, hpoint⟩ := ih pr0 hu
        refine ⟨by simp [hlen], fun j ha hbj => ?_⟩
        cases j with
        | zero => exact ⟨rfl, Or.inl rfl⟩
        | succ i =>
          have ha2 : i < rest.length := by simpa using ha
          have hb2 : i < pr0.2.length := by simpa using hbj
          exact hpoint i ha2 hb2

/-- A successful product-list creation leaves the ExhibitionProduct
table untouched. -/
theorem productListsPOST_eps (db : Db) (lid now : String) (ids : Nat → String)
    (ex sup : Option String) (its : Option (List PLInput)) (pl : ProductList) (db2 : Db)
    (h : productListsPOST db lid now ids ex sup its = some (pl, db2)) :
    db2.exhibitionProducts = db.exhibitionProducts := by
  rcases ex with _ | e <;> rcases sup with _ | s <;> rcases its with _ | l <;>
    simp only [productListsPOST] at h
  case some.some.some =>
    by_cases hx : (e == "" || s == "") = true
    · rw [if_pos hx] at h
      exact absurd h (by simp)
    · rw [if_neg hx] at h
      simp only [Option.some.injEq, Prod.mk.injEq] at h
      obtain ⟨_, hdb⟩ := h
      subst hdb
      rfl
  all_goals exact absurd h (by simp)

/-- A successful product-list item replacement leaves the
ExhibitionProduct table untouched. -/
theorem productListPUT_eps (db : Db) (lid : String) (st : Option String)
    (its : Option (List PLInput)) (ids : Nat → String) (db2 : Db)
    (h : productListPUT db lid st its ids = some db2) :
    db2.exhibitionProducts = db.exhibitionProducts := by
  unfold productListPUT at h
  cases hg : getProductListById db lid with
  | none =>
    rw [hg] at h
    exact absurd h (by simp)
  | some list =>
    rw [hg] at h
    cases st with
    | none =>
      cases its with
      | none =>
        simp only [Option.some.injEq] at h
        subst h
        rfl
      | some l =>
        simp only [Option.some.injEq] at h
        subst h
        rfl
    | some s =>
      by_cases hs : (s == "") = true
      · cases its with
        | none =>
          simp only [hs, if_true, Option.some.injEq] at h
          subst h
          rfl
        | some l =>
          simp only [hs, if_true, Option.some.injEq] at h
          subst h
          rfl
      · have hsf : (s == "") = false := by simpa using hs
        cases its with
        | none =>
          simp only [hsf, if_false, Option.some.injEq] at h
          subst h
          rfl
        | some l =>
          simp only [hsf, if_false, Option.some.injEq] at h
          subst h
          rfl

/-- Every single public operation evolves the ExhibitionProduct table
without reviving a pending status. -/
theorem step_epsNoRepend (db : Db) (op : Op) :
    epsNoRepend db.exhibitionProducts (step db op).exhibitionProducts := by
  cases op with
  | productsCreate inp => exact epsNoRepend_refl _
  | productUpdate id u => exact epsNoRepend_refl _
  | productDelete id => exact epsNoRepend_refl _
  | exhibitionsCreate nid code ids body =>
    show epsNoRepend _ ((exhibitionsPOST db nid code ids body).2).exhibitionProducts
    unfold exhibitionsPOST
    cases hbp : body.products with
    | none => exact epsNoRepend_refl _
    | some ps => exact epsNoRepend_append _ _
  | exhibitionProductsAdd ex ids ps =>
    show epsNoRepend _ (exhibitionProductsPOST db ex ids ps).exhibitionProducts
    unfold exhibitionProductsPOST
    cases ps with
    | none => exact epsNoRepend_refl _
    | some l => exact epsNoRepend_append _ _
  | ordersCreate g n body =>
    show epsNoRepend _ ((ordersPOST db g n body).2).exhibitionProducts
    unfold ordersPOST
    cases hf : ordersFirstFailing db body with
    | some it => exact epsNoRepend_refl _
    | none => exact epsNoRepend_refl _
  | approvalSet id st =>
    show epsNoRepend _ ((approvePOST db id st).2).exhibitionProducts
    unfold approvePOST
    by_cases hc : (st == "approved" || st == "rejected") = true
    · rw [if_neg (by simp [hc])]
      cases hu : updateExhibitionProduct db.exhibitionProducts id st with
      | none => exact epsNoRepend_refl _
      | some pr =>
        obtain ⟨hlen, hpoint⟩ := updateExhibitionProduct_pointwise _ id st pr hu
        refine ⟨by rw [hlen], fun j ha hb2 => ?_⟩
        obtain ⟨hid, hst⟩ := hpoint j ha hb2
        refine ⟨hid, fun hnp => ?_⟩
        rcases hst with h | h
        · rw [h]
          exact hnp
        · rw [h]
          rcases (by simpa using hc : st = "approved" ∨ st = "rejected") with rfl | rfl <;> decide
    · rw [if_pos (by simpa using hc)]
      exact epsNoRepend_refl _
  | productListsCreate lid now ids ex sup its =>
    show epsNoRepend _
      ((match productListsPOST db lid now ids ex sup its with
        | some r => r.2
        | none => db) : Db).exhibitionProducts
    cases hr : productListsPOST db lid now ids ex sup its with
    | none => exact epsNoRepend_refl _
    | some r =>
      rw [productListsPOST_eps db lid now ids ex sup its r.1 r.2 (by rw [hr])]
      exact epsNoRepend_refl _
  | productListUpdate lid st its ids =>
    show epsNoRepend _
      ((match productListPUT db lid st its ids with
        | some d => d
        | none => db) : Db).exhibitionProducts
    cases hr : productListPUT db lid st its ids with
    | none => exact epsNoRepend_refl _
    | some d =>
      rw [productListPUT_eps db lid st its ids d hr]
      exact epsNoRepend_refl _

/-- No sequence of public operations revives a pending status. -/
theorem run_epsNoRepend (ops : List Op) (db : Db) :
    epsNoRepend db.exhibitionProducts (run db ops).exhibitionProducts := by
  induction ops generalizing db with
  | nil => exact epsNoRepend_refl _
  | cons op rest ih => exact epsNoRepend_trans (step_epsNoRepend db op) (ih (step db op))

/-- Every row a single public operation appends to the ExhibitionProduct
table starts pending. -/
theorem step_fresh_pending (db : Db) (op : Op) (j : Nat)
    (hb : j < (step db op).exhibitionProducts.length)
    (hge : db.exhibitionProducts.length ≤ j) :
    ((step db op).exhibitionProducts[j]).status = "pending" := by
  cases op with
  | productsCreate inp =>
    have he : (step db (Op.productsCreate inp)).exhibitionProducts = db.exhibitionProducts := rfl
    rw [he] at hb
    omega
  | productUpdate id u =>
    have he : (step db (Op.productUpdate id u)).exhibitionProducts = db.exhibitionProducts := rfl
    rw [he] at hb
    omega
  | productDelete id =>
    have he : (step db (Op.productDelete id)).exhibitionProducts = db.exhibitionProducts := rfl
    rw [he] at hb
    omega
  | exhibitionsCreate nid code ids body =>
    cases hbp : body.products with
    | none =>
      have he : (step db (Op.exhibitionsCreate nid code ids body)).exhibitionProducts =
          db.exhibitionProducts := by
        show ((exhibitionsPOST db nid code ids body).2).exhibitionProducts = _
        unfold exhibitionsPOST
        rw [hbp]
      rw [he] at hb
      omega
    | some ps =>
      have he : (step db (Op.exhibitionsCreate nid code ids body)).exhibitionProducts =
          db.exhibitionProducts ++ newEPs code ids ps := by
        show ((exhibitionsPOST db nid code ids body).2).exhibitionProducts = _
        unfold exhibitionsPOST
        rw [hbp]
      have hb2 : j < (db.exhibitionProducts ++ newEPs code ids ps).length := he ▸ hb
      rw [List.getElem_of_eq he hb, List.getElem_append_right hge]
      exact mem_newEPs_status _ _ _ _ (List.getElem_mem _)
  | exhibitionProductsAdd ex ids ps =>
    cases ps with
    | none =>
      have he : (step db (Op.exhibitionProductsAdd ex ids none)).exhibitionProducts =
          db.exhibitionProducts := rfl
      rw [he] at hb
      omega
    | some l =>
      have he : (step db (Op.exhibitionProductsAdd ex ids (some l))).exhibitionProducts =
          db.exhibitionProducts ++ newEPs ex ids l := rfl
      rw [List.getElem_of_eq he hb, List.getElem_append_right hge]
      exact mem_newEPs_status _ _ _ _ (List.getElem_mem _)
  | ordersCreate g n body =>
    have he : (step db (Op.ordersCreate g n body)).exhibitionProducts =
        db.exhibitionProducts := by
      show ((ordersPOST db g n body).2).exhibitionProducts = _
      unfold ordersPOST
      cases hf : ordersFirstFailing db body with
      | some it => rfl
      | none => rfl
    rw [he] at hb
    omega
  | approvalSet id st =>
    have he : (step db (Op.approvalSet id st)).exhibitionProducts.length =
        db.exhibitionProducts.length := by
      show ((approvePOST db id st).2).exhibitionProducts.length = _
      unfold approvePOST
      by_cases hc : (st == "approved" || st == "rejected") = true
      · rw [if_neg (by simp [hc])]
        cases hu : updateExhibitionProduct db.exhibitionProducts id st with
        | none => rfl
        | some pr =>
          exact (updateExhibitionProduct_pointwise _ id st pr hu).1
      · rw [if_pos (by simpa using hc)]
    rw [he] at hb
    omega
  | productListsCreate lid now ids ex sup its =>
    have he : (step db (Op.productListsCreate lid now ids ex sup its)).exhibitionProducts =
        db.exhibitionProducts := by
      show ((match productListsPOST db lid now ids ex sup its with
            | some r => r.2
            | none => db) : Db).exhibitionProducts = _
      cases hr : productListsPOST db lid now ids ex sup its with
      | none => rfl
      | some r => exact productListsPOST_eps db lid now ids ex sup its r.1 r.2 (by rw [hr])
    rw [he] at hb
    omega
  | productListUpdate lid st its ids =>
    have he : (step db (Op.productListUpdate lid st its ids)).exhibitionProducts =
        db.exhibitionProducts := by
      show ((match productListPUT db lid st its ids with
            | some d => d
            | none => db) : Db).exhibitionProducts = _
      cases hr : productListPUT db lid st its ids with
      | none => rfl
      | some d => exact productListPUT_eps db lid st its ids d hr
    rw [he] at hb
    omega

/-- Replacing the status of a row with the status it already carries is
the identity on the row. -/
theorem ep_set_status_self (r : ExhibitionProduct) (st : String) (h : r.status = st) :
    { r with status := st } = r := by
  cases r
  simp_all

/-- Approving the row that find? locates when it is already approved
rewrites it to itself. -/
theorem updateExhibitionProduct_self (eps : List ExhibitionProduct) (id : String)
    (r : ExhibitionProduct) (h : eps.find? (fun ep => ep.id == id) = some r)
    (hr : r.status = "approved") :
    updateExhibitionProduct eps id "approved" = some (r, eps) := by
  induction eps with
  | nil => simp at h
  | cons ep rest ih =>
    by_cases hb : (ep.id == id) = true
    · have hl : ep = r := by
        rw [List.find?_cons, hb] at h
        simpa using h
      subst hl
      have hmerge : { ep with status := "approved" } = ep := ep_set_status_self ep _ hr
      simp [updateExhibitionProduct, hb, hmerge]
    · have hbf : (ep.id == id) = false := by simpa using hb
      have h2 : rest.find? (fun ep => ep.id == id) = some r := by
        rw [List.find?_cons, hbf] at h
        simpa using h
      simp [updateExhibitionProduct, hbf, ih h2]

/-- Approving an already-approved row succeeds, returns the row, and
leaves the whole store unchanged. -/
theorem approve_idempotent (db : Db) (id : String) (r : ExhibitionProduct)
    (h : db.exhibitionProducts.find? (fun ep => ep.id == id) = some r)
    (hr : r.status = "approved") :
    approvePOST db id "approved" = (.updated r, db) := by
  unfold approvePOST
  rw [if_neg (by simp), updateExhibitionProduct_self db.exhibitionProducts id r h hr]

/-- C6: statuses never return to pending through the public contract.
Along any sequence of public operations every surviving table position
keeps its row id and a non-pending status never becomes pending; every
row appended by a single operation starts pending; the only
status-changing operation rejects every status other than approved and
rejected without touching the store; and approving an already-approved
row succeeds, returning the row with the store unchanged. -/
theorem C6_no_repend :
    (∀ (db : Db) (ops : List Op),
      epsNoRepend db.exhibitionProducts (run db ops).exhibitionProducts) ∧
    (∀ (db : Db) (op : Op) (j : Nat) (hb : j < (step db op).exhibitionProducts.length),
      db.exhibitionProducts.length ≤ j →
      ((step db op).exhibitionProducts[j]).status = "pending") ∧
    (∀ (db : Db) (id st : String), st ≠ "approved" → st ≠ "rejected" →
      approvePOST db id st = (.invalidStatus, db)) ∧
    (∀ (db : Db) (id : String) (r : ExhibitionProduct),
      db.exhibitionProducts.find? (fun ep => ep.id == id) = some r →
      r.status = "approved" → approvePOST db id "approved" = (.updated r, db)) := by
  refine ⟨fun db ops => run_epsNoRepend ops db, step_fresh_pending, ?_, approve_idempotent⟩
  intro db id st h1 h2
  have hc : (st == "approved" || st == "rejected") = false := by simp [h1, h2]
  simp [approvePOST, hc]

/-- C6 witness: an invalid status is rejected with the store unchanged,
and re-approving the already-approved row of dbApproved returns it with
the store unchanged. -/
theorem C6_witness :
    approvePOST dbApproved "e1" "bogus" = (.invalidStatus, dbApproved) ∧
    approvePOST dbApproved "e1" "approved" =
      (.updated { id := "e1", exhibitionId := "EX-1", productId := "p1", quantity := 1,
                  price := none, status := "approved", supplierId := "current-user" },
       dbApproved) :=
  ⟨C6_no_repend.2.2.1 dbApproved "e1" "bogus" (by decide) (by decide),
   C6_no_repend.2.2.2 dbApproved "e1"
     { id := "e1", exhibitionId := "EX-1", productId := "p1", quantity := 1,
       price := none, status := "approved", supplierId := "current-user" }
     (by decide) rfl⟩

end TranspoLogistics
